import Mathlib

/-!
Verification of the content-generation pipeline of the Amarktai-Marketing
backend against its specification.

The development shallowly embeds the three core components:

* the multi-provider media-routing layer
  (backend/app/agents/media_agent_v2.py): provider registry, candidate
  listing, and the image/video/voiceover generation loops with fallback;
* the heuristic scoring engine and feedback generator
  (backend/app/agents/optimizer_agent.py);
* the stage-sequenced pipeline orchestrator
  (backend/app/workflows/nightly_workflow_v2.py): research, creative,
  media, optimize, A/B-test and finalize nodes, variant generation and
  winner selection.

Modelling conventions:

* Python strings are Lean `String`s; all character-level operations
  (lower-casing, substring search, split, replace) are re-implemented on
  `List Char` so that they evaluate inside the kernel.
* Python dict lookups with defaults become `Option` fields with explicit
  defaulting; a dict value that the code tests for truthiness is modelled
  as `Option` where `none` covers both a missing key and a falsy value.
* Monetary costs (Python floats such as 0.03 USD per image or 0.0001 USD
  per character) are represented exactly as naturals in units of 10^-7
  USD, which preserves their ordering and zero-ness.
* External network calls (LLM agents, media providers, research lookups)
  are passed in as explicit oracle functions; a call that may raise is an
  oracle returning `Except String α`.
* The LangGraph `StateGraph.ainvoke` run is modelled as the sequential
  composition of super-steps along the declared edges
  research → creative → media → optimize → ab_test → finalize. Each
  super-step applies the node's returned state to the channels of
  ContentWorkflowState: every plain key is a LastValue channel and is
  overwritten, while errors is declared with the operator.add reducer, so
  the returned error list is appended to the channel's current value.
  Because every node returns the full state (errors included), each
  super-step after a stage that recorded errors re-appends the whole
  accumulated list.
* Python `int(x)` applied to the non-negative float score combinations is
  modelled as exact rational truncation (natural-number division); the
  [0,100] bound claims proved here are robust to the difference between
  binary floating point and exact arithmetic, since all operands are
  integers in [0,100] scaled by the fixed weights.
-/

/-! ## Character-level string primitives (Python string semantics) -/

/-- Boolean test that the first list is a prefix of the second. -/
def isPrefixCh : List Char → List Char → Bool
  | [], _ => true
  | _ :: _, [] => false
  | a :: as, b :: bs => a == b && isPrefixCh as bs

/-- Boolean test that the pattern occurs as a contiguous infix of the list,
mirroring the semantics of the Python membership test on strings. -/
def infixCh (pat : List Char) : List Char → Bool
  | [] => isPrefixCh pat []
  | c :: rest => isPrefixCh pat (c :: rest) || infixCh pat rest

/-- Python substring test: pat occurs inside s. -/
def strContains (s pat : String) : Bool := infixCh pat.toList s.toList

/-- Python str.lower, restricted to the ASCII range used by the lexicons. -/
def pyLower (s : String) : String := String.mk (s.data.map Char.toLower)

/-- Python platform.split(sep)[0]: the characters before the first '_'. -/
def platformKey (s : String) : String :=
  String.mk (s.data.takeWhile (fun c => c ≠ '_'))

/-- Helper for Python str.replace: rewrite non-overlapping occurrences of the
non-empty pattern left to right, with fuel bounded by the text length. -/
def replChAux (pat rep : List Char) : Nat → List Char → List Char
  | _, [] => []
  | 0, s => s
  | fuel + 1, c :: cs =>
    if isPrefixCh pat (c :: cs) then rep ++ replChAux pat rep fuel ((c :: cs).drop pat.length)
    else c :: replChAux pat rep fuel cs

/-- Python str.replace(pat, rep). Replacing the empty pattern interleaves the
replacement around every character, exactly as CPython does. -/
def pyReplace (s pat rep : String) : String :=
  if pat.data.isEmpty then
    String.mk (rep.data ++ s.data.foldr (fun c acc => c :: (rep.data ++ acc)) [])
  else
    String.mk (replChAux pat.data rep.data s.data.length s.data)

/-- Stable insertion of an element into a list sorted by a natural key: the
element goes before the first entry whose key is not smaller, so that equal
keys keep their original relative order. -/
def sInsert (key : α → Nat) (x : α) : List α → List α
  | [] => [x]
  | y :: ys => if key y < key x then y :: sInsert key x ys else x :: y :: ys

/-- Stable sort by a natural key, modelling Python list.sort(key=...). -/
def pyStableSort (key : α → Nat) : List α → List α
  | [] => []
  | x :: xs => sInsert key x (pyStableSort key xs)

/-! ## Provider registry (MediaAgentV2.__init__ and _get_available_providers) -/

/-- Provider priority tiers of media_agent_v2.ProviderPriority. -/
inductive Tier where
  | free
  | cheap
  | premium
deriving DecidableEq, Repr

/-- Numeric order used by the sort in _get_available_providers:
FREE first, then CHEAP, then PREMIUM. -/
def priorityOrder : Tier → Nat
  | .free => 0
  | .cheap => 1
  | .premium => 2

/-- One registry entry: provider name, the credential key it needs, its
priority tier, and its declared cost in units of 10^-7 USD. -/
structure Provider where
  name : String
  keyName : String
  tier : Tier
  cost : Nat
deriving DecidableEq, Repr

/-- Image provider registry (self.providers), in dict insertion order. -/
def imageProviders : List Provider :=
  [ { name := "huggingface", keyName := "HUGGINGFACE_TOKEN", tier := .free, cost := 0 },
    { name := "leonardo", keyName := "LEONARDO_API_KEY", tier := .premium, cost := 300000 },
    { name := "openai", keyName := "OPENAI_API_KEY", tier := .premium, cost := 400000 },
    { name := "replicate", keyName := "REPLICATE_API_TOKEN", tier := .cheap, cost := 100000 },
    { name := "fal", keyName := "FAL_AI_KEY", tier := .cheap, cost := 200000 },
    { name := "siliconflow", keyName := "SILICONFLOW_API_KEY", tier := .free, cost := 0 } ]

/-- Video provider registry (self.video_providers), in dict insertion order. -/
def videoProviders : List Provider :=
  [ { name := "runway", keyName := "RUNWAY_API_KEY", tier := .premium, cost := 2000000 },
    { name := "heygen", keyName := "HEYGEN_API_KEY", tier := .premium, cost := 3000000 },
    { name := "replicate_video", keyName := "REPLICATE_API_TOKEN", tier := .cheap, cost := 500000 } ]

/-- Audio provider registry (self.audio_providers), in dict insertion order;
costs are per character. -/
def audioProviders : List Provider :=
  [ { name := "elevenlabs", keyName := "ELEVENLABS_API_KEY", tier := .premium, cost := 1000 },
    { name := "coqui", keyName := "COQUI_API_KEY", tier := .free, cost := 0 },
    { name := "playht", keyName := "PLAYHT_API_KEY", tier := .cheap, cost := 500 } ]

/-- Registry selected for a media type, as in _get_available_providers. -/
def providersOf (mediaType : String) : List Provider :=
  if mediaType = "image" then imageProviders
  else if mediaType = "video" then videoProviders
  else if mediaType = "audio" then audioProviders
  else []

/-- Candidate filtering and stable priority sort of _get_available_providers,
kept at the level of descriptors. The credential map is the truthiness of
_get_key (user key overriding environment) per credential key name. -/
def availableFrom (provs : List Provider) (creds : String → Bool)
    (priority : Option Tier) : List Provider :=
  pyStableSort (fun p => priorityOrder p.tier)
    (provs.filter (fun p =>
      creds p.keyName && (match priority with | none => true | some t => p.tier = t)))

/-- MediaAgentV2._get_available_providers: names of available providers,
sorted FREE then CHEAP then PREMIUM (Python sort is stable). -/
def getAvailableProviders (mediaType : String) (creds : String → Bool)
    (priority : Option Tier) : List String :=
  (availableFrom (providersOf mediaType) creds priority).map (fun p => p.name)

/-! ## Media router (MediaAgentV2.generate_image / generate_video /
generate_voiceover) -/

/-- MediaAsset descriptor of media_agent_v2.MediaAsset. The free-form
metadata dict (prompt, upstream identifiers) carries no logic and is
omitted; cost is in units of 10^-7 USD. -/
structure MediaAsset where
  id : String
  mtype : String
  url : Option String
  status : String
  provider : String
  cost : Nat
deriving DecidableEq, Repr

/-- Aspect-ratio table of generate_image; platforms outside the table keep
the caller-supplied width and height. -/
def aspectRatio (platform : String) (w h : Nat) : Nat × Nat :=
  let k := platformKey platform
  if k = "instagram" then (1024, 1024)
  else if k = "tiktok" then (1080, 1920)
  else if k = "youtube" then (1920, 1080)
  else if k = "twitter" then (1600, 900)
  else if k = "linkedin" then (1200, 627)
  else if k = "facebook" then (1200, 630)
  else (w, h)

/-- Fallback image asset of generate_image (used both when no provider is
available and when every provider failed). -/
def placeholderImage (assetId : String) (w h : Nat) : MediaAsset :=
  { id := assetId, mtype := "image",
    url := some ("https://images.unsplash.com/photo-1551434678-e076c223a692?w=" ++
      toString w ++ "&h=" ++ toString h ++ "&fit=crop"),
    status := "completed", provider := "placeholder", cost := 0 }

/-- Fallback video asset of generate_video. -/
def placeholderVideo (assetId : String) : MediaAsset :=
  { id := assetId, mtype := "video",
    url := some "https://assets.mixkit.co/videos/preview/mixkit-typing-on-a-laptop-in-a-coffee-shop-484-large.mp4",
    status := "completed", provider := "placeholder", cost := 0 }

/-- Fallback audio asset of generate_voiceover: unlike image and video, the
audio fallback carries provider "none" and a missing URL. -/
def fallbackVoiceover (assetId : String) : MediaAsset :=
  { id := assetId, mtype := "audio", url := none,
    status := "completed", provider := "none", cost := 0 }

/-- Sequential fallback over the ordered candidate list: a provider call that
raises, or returns None, hands over to the next candidate (the if/elif
dispatch covers every registry name, so the bare-else continue branch is
unreachable for registry-produced candidates). The oracle models the
provider-specific network call. -/
def tryList (attempt : String → Except String (Option MediaAsset)) :
    List String → Option MediaAsset
  | [] => none
  | p :: ps =>
    match attempt p with
    | .error _ => tryList attempt ps
    | .ok none => tryList attempt ps
    | .ok (some a) => some a

/-- MediaAgentV2.generate_image: aspect-ratio resolution, free-tier
restriction for free-plan users, candidate iteration with fallback, and the
placeholder result when no provider is available or all fail. -/
def generateImage (creds : String → Bool) (userPlan : String)
    (attempt : String → Except String (Option MediaAsset))
    (assetId : String) (platform : String)
    (width : Nat := 1024) (height : Nat := 1024) (preferFree : Bool := true) :
    MediaAsset :=
  let wh := aspectRatio platform width height
  let priority := if preferFree && userPlan == "free" then some Tier.free else none
  let providers := getAvailableProviders "image" creds priority
  if providers.isEmpty then placeholderImage assetId wh.1 wh.2
  else
    match tryList attempt providers with
    | some a => { a with id := assetId }
    | none => placeholderImage assetId wh.1 wh.2

/-- MediaAgentV2.generate_video: candidate iteration with fallback and the
placeholder result. -/
def generateVideo (creds : String → Bool)
    (attempt : String → Except String (Option MediaAsset))
    (assetId : String) : MediaAsset :=
  let providers := getAvailableProviders "video" creds none
  if providers.isEmpty then placeholderVideo assetId
  else
    match tryList attempt providers with
    | some a => { a with id := assetId }
    | none => placeholderVideo assetId

/-- MediaAgentV2.generate_voiceover: candidate iteration with fallback; both
the no-provider case and the all-failed case return the provider-"none"
asset. -/
def generateVoiceover (creds : String → Bool)
    (attempt : String → Except String (Option MediaAsset))
    (assetId : String) : MediaAsset :=
  let providers := getAvailableProviders "audio" creds none
  if providers.isEmpty then fallbackVoiceover assetId
  else
    match tryList attempt providers with
    | some a => { a with id := assetId }
    | none => fallbackVoiceover assetId

/-! ## Content-package data model (creative output consumed by the
optimizer and the variant generator) -/

/-- Caption block of a content package; only the text field is consumed by
the scoring and variant code. -/
structure CaptionData where
  text : String
deriving DecidableEq, Repr

/-- CTA block of a content package: the recommended CTA string and the
values of the variations dict in insertion order. -/
structure CtaData where
  recommended : String
  variations : List String
deriving DecidableEq, Repr

/-- Video-script block; scoring reads only the hook. -/
structure VideoScript where
  hook : String
deriving DecidableEq, Repr

/-- Content-angle block; scoring reads only the format tag. -/
structure ContentAngle where
  format : Option String
deriving DecidableEq, Repr

/-- The content dict of a package: "caption", "video_script", "cta" keys
modelled as Option (none covers missing or falsy), plus presence of the
"image_prompts" key, whose inner data the scoring code never reads. -/
structure PkgContent where
  caption : Option CaptionData
  videoScript : Option VideoScript
  cta : Option CtaData
  imagePrompts : Bool
deriving DecidableEq, Repr

/-- A content package as consumed downstream of the creative stage.
contentRepr models the Python str(content) rendering that
_score_uniqueness searches for the product name. -/
structure ContentPackage where
  content : PkgContent
  contentAngle : Option ContentAngle
  contentRepr : String
deriving DecidableEq, Repr

/-- Web-app (product) context; category is optional because every consumer
reads it through .get with default "SaaS". -/
structure WebappData where
  id : String
  name : String
  category : Option String
deriving DecidableEq, Repr

/-- Research/trend context consumed by _score_trend_alignment. -/
structure TrendData where
  trendingCategories : List String
deriving DecidableEq, Repr

/-! ## Scoring engine (OptimizerAgent._calculate_viral_score and helpers) -/

/-- Viral-phrasing pattern count of _score_hook; the only non-literal regex,
"wait (until|for)", is expanded into its two alternatives. -/
def hookPatternHits (hl : String) : Nat :=
  (if strContains hl "wait until" || strContains hl "wait for" then 1 else 0) +
  (if strContains hl "this changes everything" then 1 else 0) +
  (if strContains hl "can\x27t believe" then 1 else 0) +
  (if strContains hl "stop doing" then 1 else 0) +
  (if strContains hl "secret" then 1 else 0) +
  (if strContains hl "nobody" then 1 else 0) +
  (if strContains hl "pov:" then 1 else 0) +
  (if strContains hl "hot take" then 1 else 0) +
  (if strContains hl "unpopular opinion" then 1 else 0)

/-- OptimizerAgent._score_hook: base 50, +10 per matched pattern, length
adjustment, TikTok bonus, clamped into [0,100]. -/
def scoreHook (hook : String) (platform : String) : Nat :=
  let hl := pyLower hook
  let base : Int := 50 + 10 * (hookPatternHits hl : Int)
  let withLen : Int :=
    if hook.length < 10 then base - 10
    else if hook.length > 100 then base - 5
    else base + 5
  let withPlatform : Int :=
    if platform == "tiktok" &&
        (strContains hl "pov" || strContains hl "tell me" || strContains hl "the way")
    then withLen + 10 else withLen
  (min 100 (max 0 withPlatform)).toNat

/-- Positive-trigger lexicon of _score_emotional_impact. -/
def positiveTriggers : List String :=
  ["amazing", "incredible", "love", "perfect", "game changer", "transform"]

/-- Negative-trigger lexicon of _score_emotional_impact. -/
def negativeTriggers : List String :=
  ["struggle", "problem", "frustrated", "waste", "difficult"]

/-- Urgency-trigger lexicon of _score_emotional_impact. -/
def urgencyTriggers : List String :=
  ["now", "today", "limited", "urgent", "don\x27t miss"]

/-- OptimizerAgent._score_emotional_impact: base 50, +5 per positive
trigger present, +3 per negative trigger, +4 per urgency trigger, capped at
100. Each trigger contributes at most once because the code tests
membership, not occurrence count. -/
def scoreEmotionalImpact (text : String) : Nat :=
  let tl := pyLower text
  min 100 (50 +
    5 * (positiveTriggers.filter (fun w => strContains tl w)).length +
    3 * (negativeTriggers.filter (fun w => strContains tl w)).length +
    4 * (urgencyTriggers.filter (fun w => strContains tl w)).length)

/-- OptimizerAgent._score_shareability. -/
def scoreShareability (pkg : ContentPackage) (platform : String) : Nat :=
  min 100 (50 +
    (if pkg.content.cta.isSome then 10 else 0) +
    (if (match pkg.content.caption with
         | some c => decide (50 < c.text.length)
         | none => false) then 5 else 0) +
    (if pkg.content.imagePrompts || pkg.content.videoScript.isSome then 15 else 0) +
    (if (platform == "tiktok" || platform == "instagram") && pkg.content.videoScript.isSome
     then 10 else 0))

/-- Optimal posting-hour table of _score_timing, keyed by platform prefix. -/
def optimalHours (k : String) : List Nat :=
  if k = "youtube" then [12, 15, 18]
  else if k = "tiktok" then [7, 12, 19]
  else if k = "instagram" then [11, 14, 19]
  else if k = "facebook" then [9, 13, 15]
  else if k = "twitter" then [8, 12, 17]
  else if k = "linkedin" then [8, 12, 17]
  else [12]

/-- OptimizerAgent._score_timing at an injected wall-clock hour: exact match
90, within one hour 75, otherwise 60. -/
def scoreTiming (platform : String) (hour : Nat) : Nat :=
  let optimal := optimalHours (platformKey platform)
  if optimal.contains hour then 90
  else if optimal.any (fun h => ((hour : Int) - h).natAbs ≤ 1) then 75
  else 60

/-- Distinctive-format set of _score_uniqueness. -/
def uniqueFormats : List String := ["pov", "transformation", "day_in_life", "comparison"]

/-- OptimizerAgent._score_uniqueness: base 60, +15 for a distinctive angle
format, +10 when the product name occurs in the stringified content. -/
def scoreUniqueness (pkg : ContentPackage) (webapp : WebappData) : Nat :=
  min 100 (60 +
    (if (match pkg.contentAngle with
         | some angle => (match angle.format with
                          | some f => uniqueFormats.contains f
                          | none => false)
         | none => false) then 15 else 0) +
    (if strContains pkg.contentRepr webapp.name then 10 else 0))

/-- OptimizerAgent._score_trend_alignment: base 50, +25 when the category is
trending, +15 for the fixed tech/AI-adjacent category set. -/
def scoreTrendAlignment (webapp : WebappData) (trend : TrendData) : Nat :=
  let category := webapp.category.getD "SaaS"
  min 100 (50 +
    (if trend.trendingCategories.contains category then 25 else 0) +
    (if ["SaaS", "Developer Tools", "AI"].contains category then 15 else 0))

/-- OptimizerAgent._generate_feedback: one threshold rule per sub-score in
the fixed order hook, emotional, shareability, timing, uniqueness, trend;
every threshold is 70 except timing, which uses 80. The result is
(positive factors, negative factors, recommendations). -/
def generateFeedback (hook emotional shareable timing unique trend : Nat) :
    List String × List String × List String :=
  let acc : List String × List String × List String := ([], [], [])
  let acc := if 70 ≤ hook then (acc.1 ++ ["Strong hook that grabs attention immediately"], acc.2.1, acc.2.2)
    else (acc.1, acc.2.1 ++ ["Hook could be more compelling"],
      acc.2.2 ++ ["Start with a question, bold statement, or curiosity gap"])
  let acc := if 70 ≤ emotional then (acc.1 ++ ["Good emotional resonance with audience"], acc.2.1, acc.2.2)
    else (acc.1, acc.2.1, acc.2.2 ++ ["Add more emotional language and relatable scenarios"])
  let acc := if 70 ≤ shareable then (acc.1 ++ ["High shareability factor"], acc.2.1, acc.2.2)
    else (acc.1, acc.2.1, acc.2.2 ++ ["Include a clear call-to-action and value proposition"])
  let acc := if 80 ≤ timing then (acc.1 ++ ["Optimal posting time"], acc.2.1, acc.2.2)
    else (acc.1, acc.2.1, acc.2.2 ++ ["Consider posting during peak engagement hours"])
  let acc := if 70 ≤ unique then (acc.1 ++ ["Unique angle that stands out"], acc.2.1, acc.2.2)
    else (acc.1, acc.2.1, acc.2.2 ++ ["Try a different content format or angle"])
  let acc := if 70 ≤ trend then (acc.1 ++ ["Well-aligned with current trends"], acc.2.1, acc.2.2)
    else (acc.1, acc.2.1, acc.2.2 ++ ["Incorporate trending topics or hashtags"])
  acc

/-- Base-reach table of _estimate_reach, keyed by platform prefix. -/
def baseReach (k : String) : Nat :=
  if k = "youtube" then 10000
  else if k = "tiktok" then 50000
  else if k = "instagram" then 15000
  else if k = "facebook" then 8000
  else if k = "twitter" then 5000
  else if k = "linkedin" then 3000
  else 10000

/-- OptimizerAgent._estimate_reach: base reach scaled by overall/50 and
truncated to an integer. -/
def estimateReach (viralScore : Nat) (platform : String) : Nat :=
  baseReach (platformKey platform) * viralScore / 50

/-- ViralScoreResult value object of optimizer_agent.ViralScoreResult. -/
structure ViralScoreResult where
  overall : Nat
  hookStrength : Nat
  emotionalImpact : Nat
  shareability : Nat
  timingScore : Nat
  uniqueness : Nat
  trendAlignment : Nat
  viralProbability : Nat
  estimatedReach : Nat
  positiveFactors : List String
  negativeFactors : List String
  recommendations : List String
deriving DecidableEq, Repr

/-- OptimizerAgent._calculate_viral_score with the wall-clock hour injected
as a parameter. The overall score is the fixed weighted sum (hook 0.25,
emotional 0.20, shareability 0.20, timing 0.10, uniqueness 0.15,
trend 0.10) truncated to an integer, modelled exactly as division by 100 of
the integer-weighted sum. -/
def calculateViralScore (pkg : ContentPackage) (platform : String)
    (webapp : WebappData) (trend : TrendData) (hour : Nat) : ViralScoreResult :=
  let hook := scoreHook (match pkg.content.videoScript with
    | some v => v.hook
    | none => "") platform
  let emotional := scoreEmotionalImpact (match pkg.content.caption with
    | some c => c.text
    | none => "")
  let shareable := scoreShareability pkg platform
  let timing := scoreTiming platform hour
  let unique := scoreUniqueness pkg webapp
  let trendA := scoreTrendAlignment webapp trend
  let overall := (hook * 25 + emotional * 20 + shareable * 20 +
    timing * 10 + unique * 15 + trendA * 10) / 100
  let fb := generateFeedback hook emotional shareable timing unique trendA
  { overall := overall, hookStrength := hook, emotionalImpact := emotional,
    shareability := shareable, timingScore := timing, uniqueness := unique,
    trendAlignment := trendA,
    viralProbability := min 100 (overall * 85 / 100),
    estimatedReach := estimateReach overall platform,
    positiveFactors := fb.1, negativeFactors := fb.2.1,
    recommendations := fb.2.2 }

/-! ## A/B variant generation (NightlyWorkflowV2._generate_ab_variants) -/

/-- Optimizations block produced by the optimizer: the selected hashtag list
(optimizations.hashtags.hashtags) and the hook variation list. -/
structure Optimizations where
  hashtags : List String
  hookVariations : List String
deriving DecidableEq, Repr

/-- Optimized content for one platform. The real optimize_content always
attaches a truthy ViralScoreResult, so the field is not optional; the falsy
branch of the variant code corresponds to the whole record being absent. -/
structure OptimizedContent where
  viralScore : ViralScoreResult
  optimizations : Optimizations
deriving DecidableEq, Repr

/-- A/B test variant record. The constant confidence float and the unused
content_angle/ab_test_id passthrough fields carry no logic and are
omitted. -/
structure Variant where
  variantId : String
  title : String
  caption : String
  hashtags : List String
  viralScore : Nat
  testHypothesis : String
deriving DecidableEq, Repr

/-- Caption text of the original package, read through the defaulted get
chain original_content.content.caption.text. -/
def origCaptionText (original : Option ContentPackage) : String :=
  match original with
  | some p => (match p.content.caption with | some c => c.text | none => "")
  | none => ""

/-- Truthiness of original_content.content.video_script. -/
def hasVideoScriptB (original : Option ContentPackage) : Bool :=
  match original with
  | some p => p.content.videoScript.isSome
  | none => false

/-- Hook variation list of optimized_content.optimizations.hook_variations. -/
def hookVariationsOf (optimized : Option OptimizedContent) : List String :=
  match optimized with
  | some o => o.optimizations.hookVariations
  | none => []

/-- Hashtag list of optimized_content.optimizations.hashtags.hashtags. -/
def hashtagsOf (optimized : Option OptimizedContent) : List String :=
  match optimized with
  | some o => o.optimizations.hashtags
  | none => []

/-- Control viral score: the overall of optimized_content.viral_score when
that value is truthy, 50 otherwise. -/
def controlViralScore (optimized : Option OptimizedContent) : Nat :=
  match optimized with
  | some o => o.viralScore.overall
  | none => 50

/-- Values of the CTA variations dict of the original package. -/
def ctaVariationsOf (original : Option ContentPackage) : List String :=
  match original with
  | some p => (match p.content.cta with | some c => c.variations | none => [])
  | none => []

/-- Recommended CTA of the original package. -/
def ctaRecommendedOf (original : Option ContentPackage) : String :=
  match original with
  | some p => (match p.content.cta with | some c => c.recommended | none => "")
  | none => ""

/-- NightlyWorkflowV2._generate_ab_variants: always emits the control
variant A; emits hook variant B when the original has a video script and
the optimizer produced hook variations (score = control + 5 capped at 100);
emits CTA variant C when fewer than three variants exist so far and the CTA
variations dict is non-empty, substituting the second variation (or the
first, when only one exists) for the recommended CTA and keeping the
control score. The control variant record is split out for reuse. -/
def controlVariant (original : Option ContentPackage)
    (optimized : Option OptimizedContent) : Variant :=
  { variantId := "A",
    title := String.mk ((origCaptionText original).data.take 50),
    caption := origCaptionText original,
    hashtags := hashtagsOf optimized,
    viralScore := controlViralScore optimized,
    testHypothesis := "Original optimized version" }

/-- Variant list built from the control variant plus the optional B and C
variants, following the code order. -/
def generateABVariants (original : Option ContentPackage)
    (optimized : Option OptimizedContent) : List Variant :=
  let variantA : Variant := controlVariant original optimized
  let vs1 : List Variant := [variantA]
  let vs2 : List Variant :=
    if hasVideoScriptB original then
      match hookVariationsOf optimized with
      | [] => vs1
      | h :: _ => vs1 ++
        [{ variantA with
           variantId := "B", title := h,
           testHypothesis := "Alternative hook variation",
           viralScore := min 100 (variantA.viralScore + 5) }]
    else vs1
  if vs2.length < 3 then
    let ctas := ctaVariationsOf original
    if ctas.isEmpty then vs2
    else
      let newCta := if 1 < ctas.length then ctas.getD 1 "" else ctas.getD 0 ""
      vs2 ++
        [{ variantA with
           variantId := "C",
           caption := pyReplace variantA.caption (ctaRecommendedOf original) newCta,
           testHypothesis := "Alternative CTA" }]
  else vs2

/-- Python max(xs, key=k) over a non-empty list split as head and tail: the
fold keeps the current best unless a later element is strictly greater, so
the first element attaining the maximum wins. -/
def pyMax (key : Variant → Nat) (x : Variant) (xs : List Variant) : Variant :=
  xs.foldl (fun best v => if key best < key v then v else best) x

/-! ## Pipeline orchestrator (NightlyWorkflowV2) -/

/-- Content angle record of _get_fallback_content_angles. -/
structure FallbackAngle where
  title : String
  hook : String
  platforms : List String
  format : String
  keyMessage : String
  cta : String
deriving DecidableEq, Repr

/-- Research results record: trending topic names, content angles and
recommended hashtags, as consumed by the creative stage and the research
fallback. -/
structure ResearchResults where
  trendingTopics : List String
  contentAngles : List FallbackAngle
  recommendedHashtags : List String
deriving DecidableEq, Repr

/-- NightlyWorkflowV2._get_fallback_content_angles. -/
def fallbackContentAngles (webapp : WebappData) : List FallbackAngle :=
  [ { title := "How " ++ webapp.name ++ " Saves You Time",
      hook := "Stop wasting time on manual tasks...",
      platforms := ["youtube", "tiktok", "instagram"],
      format := "tutorial",
      keyMessage := webapp.name ++ " automates your workflow",
      cta := "Try it free" },
    { title := "Before vs After with " ++ webapp.name,
      hook := "This is what changed everything...",
      platforms := ["tiktok", "instagram", "facebook"],
      format := "transformation",
      keyMessage := "See real results",
      cta := "Start now" } ]

/-- Finalized content item assembled by _finalize_node. The constant
confidence float and the generation_metadata dict carry no logic relevant
to any claim and are omitted. -/
structure ContentItem where
  id : String
  userId : String
  webappId : String
  platform : String
  ctype : String
  status : String
  title : String
  caption : String
  hashtags : List String
  mediaUrls : List String
  viralScore : Nat
  variantId : String
  isVariant : Bool
deriving DecidableEq, Repr

/-- NightlyWorkflowV2._determine_content_type. -/
def determineContentType (platform : String) : String :=
  if strContains platform "shorts" || strContains platform "reels" || platform == "tiktok"
  then "video"
  else if platform == "instagram" || platform == "facebook" then "image"
  else "text"

/-- NightlyWorkflowV2._extract_media_urls: URLs of the platform's assets
whose url attribute is truthy. -/
def extractMediaUrls (platform : String)
    (mediaAssets : List (String × List (String × MediaAsset))) : List String :=
  ((mediaAssets.lookup platform).getD []).filterMap (fun pair =>
    match pair.2.url with
    | some u => if u.isEmpty then none else some u
    | none => none)

/-- Workflow state of ContentWorkflowState, with per-platform dicts as
association lists in insertion order. -/
structure WFState where
  userId : String
  webappId : String
  webappData : WebappData
  platforms : List String
  researchResults : ResearchResults
  contentPackages : List (String × ContentPackage)
  mediaAssets : List (String × List (String × MediaAsset))
  optimizedContent : List (String × OptimizedContent)
  viralScores : List (String × ViralScoreResult)
  abVariants : List (String × List Variant)
  finalContent : List ContentItem
  errors : List String
  costEstimate : Nat
  currentStage : String

/-- Research node: on success store the results; on failure overwrite the
error list with the single research error (the code assigns, not appends)
and fall back to the canned content angles, leaving the stage tag
untouched. The oracle models ResearchAgentV2.research_webapp. -/
def researchNode (research : WebappData → Except String ResearchResults)
    (st : WFState) : WFState :=
  match research st.webappData with
  | .ok r => { st with researchResults := r, currentStage := "research" }
  | .error e =>
    { st with
      errors := ["Research failed: " ++ e],
      researchResults :=
        { trendingTopics := [], contentAngles := fallbackContentAngles st.webappData,
          recommendedHashtags := [] } }

/-- Creative node per-platform body: a successful generation appends the
platform's package, an exception appends a stage-tagged error and skips
the platform. The oracle models CreativeAgent.generate_content_package. -/
def creativeStep (f : String → Except String ContentPackage)
    (acc : List (String × ContentPackage) × List String) (p : String) :
    List (String × ContentPackage) × List String :=
  match f p with
  | .ok pkg => (acc.1 ++ [(p, pkg)], acc.2)
  | .error e => (acc.1, acc.2 ++ ["Creative failed for " ++ p ++ ": " ++ e])

/-- Creative node loop body applied across the platform list. -/
def creativeNode
    (creative : ResearchResults → WebappData → String → Except String ContentPackage)
    (st : WFState) : WFState :=
  let step := st.platforms.foldl
    (creativeStep (creative st.researchResults st.webappData)) ([], [])
  { st with
    contentPackages := step.1, errors := st.errors ++ step.2,
    currentStage := "creative" }

/-- Media node per-package body: accumulates the cost estimate before each
generation call and catches per-platform failures as stage-tagged errors.
The oracles model MediaAgentV2.estimate_cost and generate_content_media. -/
def mediaStep (estCost : ContentPackage → Nat)
    (mediaGen : String → ContentPackage → Except String (List (String × MediaAsset)))
    (acc : List (String × List (String × MediaAsset)) × List String × Nat)
    (pp : String × ContentPackage) :
    List (String × List (String × MediaAsset)) × List String × Nat :=
  let total := acc.2.2 + estCost pp.2
  match mediaGen pp.1 pp.2 with
  | .ok assets =>
    (acc.1 ++ [(pp.1, assets)], acc.2.1,
     total + (assets.map (fun a => a.2.cost)).sum)
  | .error e =>
    (acc.1, acc.2.1 ++ ["Media failed for " ++ pp.1 ++ ": " ++ e], total)

/-- Media node loop applied across the creative packages. -/
def mediaNode (estCost : ContentPackage → Nat)
    (mediaGen : String → ContentPackage → Except String (List (String × MediaAsset)))
    (st : WFState) : WFState :=
  let step := st.contentPackages.foldl (mediaStep estCost mediaGen) ([], [], 0)
  { st with
    mediaAssets := step.1, errors := st.errors ++ step.2.1,
    costEstimate := step.2.2, currentStage := "media" }

/-- Optimize node per-package body: per-platform error capture; on success
both the optimized content and its viral score are recorded. The oracle
models OptimizerAgent.optimize_content, whose result always carries a
viral score. -/
def optimizeStep (g : ContentPackage → String → Except String OptimizedContent)
    (acc : List (String × OptimizedContent) × List (String × ViralScoreResult) × List String)
    (pp : String × ContentPackage) :
    List (String × OptimizedContent) × List (String × ViralScoreResult) × List String :=
  match g pp.2 pp.1 with
  | .ok o => (acc.1 ++ [(pp.1, o)], acc.2.1 ++ [(pp.1, o.viralScore)], acc.2.2)
  | .error e =>
    (acc.1, acc.2.1, acc.2.2 ++ ["Optimization failed for " ++ pp.1 ++ ": " ++ e])

/-- Optimize node loop applied across the creative packages. -/
def optimizeNode
    (optimize : ContentPackage → String → WebappData → Except String OptimizedContent)
    (st : WFState) : WFState :=
  let step := st.contentPackages.foldl
    (optimizeStep (fun pkg p => optimize pkg p st.webappData)) ([], [], [])
  { st with
    optimizedContent := step.1, viralScores := step.2.1,
    errors := st.errors ++ step.2.2, currentStage := "optimize" }

/-- A/B-test node: generates variants for every platform in the target
list, reading the per-platform package and optimized content through
defaulted dict lookups. The variant generator is total, so the
per-platform except branch is unreachable. -/
def abTestNode (st : WFState) : WFState :=
  { st with
    abVariants := st.platforms.map (fun p =>
      (p, generateABVariants (st.contentPackages.lookup p)
        (st.optimizedContent.lookup p))),
    currentStage := "ab_test" }

/-- Finalize node per-platform body: a platform with a non-empty variant
list contributes the item built around its highest-scoring variant
(Python max, first maximum on ties); a platform with an empty variant list
contributes nothing. The timestamp suffix of the generated id is injected
as the now parameter. -/
def finalizeStep (now : String) (st : WFState) (acc : List ContentItem)
    (p : String) : List ContentItem :=
  match (st.abVariants.lookup p).getD [] with
  | [] => acc
  | v :: vs =>
    let best := pyMax (fun a => a.viralScore) v vs
    acc ++
      [{ id := "content_" ++ p ++ "_" ++ now,
         userId := st.userId, webappId := st.webappId, platform := p,
         ctype := determineContentType p, status := "pending",
         title := best.title, caption := best.caption,
         hashtags := best.hashtags,
         mediaUrls := extractMediaUrls p st.mediaAssets,
         viralScore := best.viralScore, variantId := best.variantId,
         isVariant := true }]

/-- Finalize node loop applied across the target platform list. -/
def finalizeNode (now : String) (st : WFState) : WFState :=
  let items := st.platforms.foldl (finalizeStep now st) []
  { st with finalContent := items, currentStage := "complete" }

/-- Initial workflow state of NightlyWorkflowV2.run. -/
def initialState (userId webappId : String) (webapp : WebappData)
    (platforms : List String) : WFState :=
  { userId := userId, webappId := webappId, webappData := webapp,
    platforms := platforms,
    researchResults := { trendingTopics := [], contentAngles := [], recommendedHashtags := [] },
    contentPackages := [], mediaAssets := [], optimizedContent := [],
    viralScores := [], abVariants := [], finalContent := [], errors := [],
    costEstimate := 0, currentStage := "research" }

/-- Result record of NightlyWorkflowV2.run. -/
structure RunResult where
  success : Bool
  content : List ContentItem
  errors : List String
  costEstimate : Nat
deriving Repr

/-- One LangGraph super-step: the node runs on the current channel state
and its returned state is written back through the channels of
ContentWorkflowState. Every plain key is a LastValue channel, overwritten
by the returned value; errors is declared `Annotated[List[str],
operator.add]`, so its new channel value is the current value with the
node's returned error list appended. Since every node returns the full
state, the returned error list already contains the accumulated errors,
which the reducer therefore duplicates. -/
def applyNode (f : WFState → WFState) (st : WFState) : WFState :=
  let ret := f st
  { ret with errors := st.errors ++ ret.errors }

/-- NightlyWorkflowV2.run: the compiled graph invoked on the initial state,
modelled as the sequential composition of channel-applying super-steps
along the declared edges; the embedded nodes are total, so the success
branch of the surrounding try/except is taken. -/
def runPipeline (userId webappId : String) (webapp : WebappData)
    (platforms : List String)
    (research : WebappData → Except String ResearchResults)
    (creative : ResearchResults → WebappData → String → Except String ContentPackage)
    (estCost : ContentPackage → Nat)
    (mediaGen : String → ContentPackage → Except String (List (String × MediaAsset)))
    (optimize : ContentPackage → String → WebappData → Except String OptimizedContent)
    (now : String) : RunResult :=
  let final := applyNode (finalizeNode now) (applyNode abTestNode
    (applyNode (optimizeNode optimize) (applyNode (mediaNode estCost mediaGen)
      (applyNode (creativeNode creative) (applyNode (researchNode research)
        (initialState userId webappId webapp platforms))))))
  { success := true, content := final.finalContent, errors := final.errors,
    costEstimate := final.costEstimate }

/-! ## Specification-side definitions used to state refinement claims -/

/-- Ascending tier-then-cost order claimed by the spec for candidate lists:
strictly earlier tier, or equal tier with non-decreasing declared cost. -/
def tierCostLE (p q : Provider) : Prop :=
  priorityOrder p.tier < priorityOrder q.tier ∨ (p.tier = q.tier ∧ p.cost ≤ q.cost)

instance : DecidableRel tierCostLE := fun _ _ =>
  inferInstanceAs (Decidable (_ ∨ _))

/-- One threshold rule of the feedback generator: the threshold, the
positive factor emitted at or above it, the optional negative factor and
the recommendation emitted below it. -/
structure FeedbackRule where
  threshold : Nat
  positiveMsg : String
  negativeMsg : Option String
  recMsg : String

/-- The six feedback rules in the fixed order hook, emotional,
shareability, timing, uniqueness, trend. Every threshold is 70 except the
timing rule, which fires its positive factor only at 80 and above. -/
def feedbackRules : List FeedbackRule :=
  [ { threshold := 70, positiveMsg := "Strong hook that grabs attention immediately",
      negativeMsg := some "Hook could be more compelling",
      recMsg := "Start with a question, bold statement, or curiosity gap" },
    { threshold := 70, positiveMsg := "Good emotional resonance with audience",
      negativeMsg := none,
      recMsg := "Add more emotional language and relatable scenarios" },
    { threshold := 70, positiveMsg := "High shareability factor",
      negativeMsg := none,
      recMsg := "Include a clear call-to-action and value proposition" },
    { threshold := 80, positiveMsg := "Optimal posting time",
      negativeMsg := none,
      recMsg := "Consider posting during peak engagement hours" },
    { threshold := 70, positiveMsg := "Unique angle that stands out",
      negativeMsg := none,
      recMsg := "Try a different content format or angle" },
    { threshold := 70, positiveMsg := "Well-aligned with current trends",
      negativeMsg := none,
      recMsg := "Incorporate trending topics or hashtags" } ]

/-- Application of one threshold rule to one sub-score, appending to the
accumulated (positive factors, negative factors, recommendations). -/
def applyFeedbackRule (acc : List String × List String × List String)
    (rs : FeedbackRule × Nat) : List String × List String × List String :=
  if rs.1.threshold ≤ rs.2 then (acc.1 ++ [rs.1.positiveMsg], acc.2.1, acc.2.2)
  else (acc.1, acc.2.1 ++ rs.1.negativeMsg.toList, acc.2.2 ++ [rs.1.recMsg])

/-- Feedback lists produced by folding exactly one threshold rule per
sub-score over the fixed rule order. -/
def specFeedback (scores : List Nat) : List String × List String × List String :=
  (feedbackRules.zip scores).foldl applyFeedbackRule ([], [], [])

/-- Message carried by a failed Except result, empty on success. -/
def exceptMsg : Except String α → String
  | .error e => e
  | .ok _ => ""

/-! ## Concrete fixtures used by witnesses and counterexamples -/

/-- Product context of the spec's Flowly scenario. -/
def webapp0 : WebappData := { id := "w1", name := "Flowly", category := some "SaaS" }

/-- Research snapshot with no trends. -/
def research0 : ResearchResults :=
  { trendingTopics := [], contentAngles := [], recommendedHashtags := [] }

/-- Content package whose CTA variations dict holds exactly one
alternative. -/
def pkgOneCta : ContentPackage :=
  { content :=
      { caption := some { text := "Flowly keeps your team in sync. Try free today." },
        videoScript := none,
        cta := some { recommended := "Try free", variations := ["Try now"] },
        imagePrompts := false },
    contentAngle := none,
    contentRepr := "Flowly keeps your team in sync." }

/-- Simple complete content package produced by the creative oracle. -/
def pkg0 : ContentPackage :=
  { content :=
      { caption := some { text := "Flowly saves you hours every week." },
        videoScript := none, cta := none, imagePrompts := false },
    contentAngle := none,
    contentRepr := "Flowly saves you hours every week." }

/-- Literal viral score attached by the optimizer oracle. -/
def viral0 : ViralScoreResult :=
  { overall := 62, hookStrength := 45, emotionalImpact := 55, shareability := 65,
    timingScore := 60, uniqueness := 70, trendAlignment := 75,
    viralProbability := 52, estimatedReach := 6200,
    positiveFactors := [], negativeFactors := [], recommendations := [] }

/-- Optimized content produced by the optimizer oracle. -/
def opt0 : OptimizedContent :=
  { viralScore := viral0,
    optimizations := { hashtags := ["#Flowly", "#SaaS"], hookVariations := [] } }

/-- Research oracle that always succeeds. -/
def research0F : WebappData → Except String ResearchResults := fun _ => Except.ok research0

/-- Creative oracle that throws for the youtube platform only. -/
def creative0 : ResearchResults → WebappData → String → Except String ContentPackage :=
  fun _ _ p => if p == "youtube" then Except.error "LLM timeout" else Except.ok pkg0

/-- Cost-estimate oracle returning zero. -/
def estCost0 : ContentPackage → Nat := fun _ => 0

/-- Media oracle that succeeds with no assets. -/
def mediaGen0 : String → ContentPackage → Except String (List (String × MediaAsset)) :=
  fun _ _ => Except.ok []

/-- Optimizer oracle that always succeeds. -/
def optimize0 : ContentPackage → String → WebappData → Except String OptimizedContent :=
  fun _ _ _ => Except.ok opt0

/-- Concrete two-platform run in which the creative stage throws for
youtube only: the scenario of the spec's third test case. -/
def run0 : RunResult :=
  runPipeline "u1" "w1" webapp0 ["youtube", "twitter"] research0F creative0
    estCost0 mediaGen0 optimize0 "1700000000"

/-- Credential map holding only the OpenAI key. -/
def onlyOpenAI : String → Bool := fun k => k == "OPENAI_API_KEY"

/-- Asset returned by the always-succeeding provider oracle. -/
def succAsset : MediaAsset :=
  { id := "", mtype := "image", url := some "https://img.example/openai.png",
    status := "completed", provider := "openai", cost := 400000 }

/-- Single control variant used by the finalize witness state. -/
def variant0 : Variant :=
  { variantId := "A", title := "Flowly keeps your team in sync",
    caption := "Flowly keeps your team in sync. Try free today.",
    hashtags := ["#Flowly"], viralScore := 60, testHypothesis := "Original optimized version" }

/-- Minimal state for exercising the finalize node in isolation. -/
def stSmall : WFState :=
  { initialState "u1" "w1" webapp0 ["twitter"] with
    abVariants := [("twitter", [variant0])] }

/-! ## Theorems -/

/-- Membership in a stable insertion. -/
theorem mem_sInsert (key : α → Nat) (x a : α) :
    ∀ l : List α, a ∈ sInsert key x l ↔ a = x ∨ a ∈ l := by
  intro l
  induction l with
  | nil => simp [sInsert]
  | cons y ys ih =>
    by_cases h : key y < key x
    · simp only [sInsert, if_pos h, List.mem_cons, ih]
      tauto
    · simp only [sInsert, if_neg h, List.mem_cons]

/-- Membership is preserved by the stable sort. -/
theorem mem_pyStableSort (key : α → Nat) (a : α) :
    ∀ l : List α, a ∈ pyStableSort key l ↔ a ∈ l := by
  intro l
  induction l with
  | nil => simp [pyStableSort]
  | cons x xs ih => simp [pyStableSort, mem_sInsert, ih]

/-- C5 counterexample: the claim applies the 70 threshold to every
sub-score, but the code uses 80 for the timing rule. At timing sub-score
75 the claim would put the timing positive factor in the list; the code
instead emits the timing recommendation. -/
theorem feedback_timing_70_counterexample :
    70 ≤ 75 ∧
    "Optimal posting time" ∉ (generateFeedback 70 70 70 75 70 70).1 ∧
    "Consider posting during peak engagement hours" ∈ (generateFeedback 70 70 70 75 70 70).2.2 := by
  decide

/-- C5 amended: the feedback lists apply exactly one threshold rule per
sub-score, in the fixed order hook, emotional, shareability, timing,
uniqueness, trend; the threshold is 70 for every rule except timing, whose
threshold is 80. At or above the threshold the rule contributes its
positive factor, below it the corresponding recommendation (and, for the
hook rule only, also a negative factor). -/
theorem feedback_follows_threshold_rules (h e s t u tr : Nat) :
    generateFeedback h e s t u tr = specFeedback [h, e, s, t, u, tr] := by
  unfold generateFeedback specFeedback feedbackRules applyFeedbackRule
  by_cases h1 : 70 ≤ h <;> by_cases h2 : 70 ≤ e <;> by_cases h3 : 70 ≤ s <;>
    by_cases h4 : 80 ≤ t <;> by_cases h5 : 70 ≤ u <;> by_cases h6 : 70 ≤ tr <;>
    simp [h1, h2, h3, h4, h5, h6]

/-- C10: each emotional trigger word contributes its bonus at most once,
so the emotional-impact score depends only on which lexicon words occur in
the lower-cased text, not on how often. -/
theorem emotional_impact_set_based (t1 t2 : String)
    (h : ∀ w ∈ positiveTriggers ++ negativeTriggers ++ urgencyTriggers,
      strContains (pyLower t1) w = strContains (pyLower t2) w) :
    scoreEmotionalImpact t1 = scoreEmotionalImpact t2 := by
  unfold scoreEmotionalImpact
  dsimp only
  have hp : positiveTriggers.filter (fun w => strContains (pyLower t1) w) =
      positiveTriggers.filter (fun w => strContains (pyLower t2) w) :=
    List.filter_congr (fun w hw => h w (by simp [hw]))
  have hn : negativeTriggers.filter (fun w => strContains (pyLower t1) w) =
      negativeTriggers.filter (fun w => strContains (pyLower t2) w) :=
    List.filter_congr (fun w hw => h w (by simp [hw]))
  have hu : urgencyTriggers.filter (fun w => strContains (pyLower t1) w) =
      urgencyTriggers.filter (fun w => strContains (pyLower t2) w) :=
    List.filter_congr (fun w hw => h w (by simp [hw]))
  rw [hp, hn, hu]

/-- C10 witness: a text containing the trigger word twice scores the same
as the text containing it once. -/
theorem emotional_impact_set_based_witness :
    (∀ w ∈ positiveTriggers ++ negativeTriggers ++ urgencyTriggers,
      strContains (pyLower "amazing amazing") w = strContains (pyLower "amazing") w) ∧
    scoreEmotionalImpact "amazing amazing" = scoreEmotionalImpact "amazing" :=
  ⟨by decide, emotional_impact_set_based "amazing amazing" "amazing" (by decide)⟩

/-- Hook sub-score clamp bound. -/
theorem scoreHook_le (hook platform : String) : scoreHook hook platform ≤ 100 :=
  Int.toNat_le.mpr (min_le_left _ _)

/-- Emotional sub-score cap bound. -/
theorem scoreEmotionalImpact_le (t : String) : scoreEmotionalImpact t ≤ 100 :=
  min_le_left _ _

/-- Shareability sub-score cap bound. -/
theorem scoreShareability_le (pkg : ContentPackage) (platform : String) :
    scoreShareability pkg platform ≤ 100 :=
  min_le_left _ _

/-- Timing sub-score only takes the values 90, 75 and 60. -/
theorem scoreTiming_le (platform : String) (hour : Nat) :
    scoreTiming platform hour ≤ 100 := by
  unfold scoreTiming
  dsimp only
  split_ifs <;> omega

/-- Uniqueness sub-score cap bound. -/
theorem scoreUniqueness_le (pkg : ContentPackage) (webapp : WebappData) :
    scoreUniqueness pkg webapp ≤ 100 :=
  min_le_left _ _

/-- Trend-alignment sub-score cap bound. -/
theorem scoreTrendAlignment_le (webapp : WebappData) (trend : TrendData) :
    scoreTrendAlignment webapp trend ≤ 100 :=
  min_le_left _ _

/-- The truncated weighted combination of six sub-scores in [0,100] stays
in [0,100]. -/
theorem weightedOverall_le {h e s t u tr : Nat}
    (hh : h ≤ 100) (he : e ≤ 100) (hs : s ≤ 100) (ht : t ≤ 100)
    (hu : u ≤ 100) (htr : tr ≤ 100) :
    (h * 25 + e * 20 + s * 20 + t * 10 + u * 15 + tr * 10) / 100 ≤ 100 := by
  omega

/-- C8: every sub-score and the overall weighted score of the scoring
engine lie in [0,100], for every content package, platform, product
context, trend context and wall-clock hour. -/
theorem viral_scores_bounded (pkg : ContentPackage) (platform : String)
    (webapp : WebappData) (trend : TrendData) (hour : Nat) :
    (calculateViralScore pkg platform webapp trend hour).hookStrength ≤ 100 ∧
    (calculateViralScore pkg platform webapp trend hour).emotionalImpact ≤ 100 ∧
    (calculateViralScore pkg platform webapp trend hour).shareability ≤ 100 ∧
    (calculateViralScore pkg platform webapp trend hour).timingScore ≤ 100 ∧
    (calculateViralScore pkg platform webapp trend hour).uniqueness ≤ 100 ∧
    (calculateViralScore pkg platform webapp trend hour).trendAlignment ≤ 100 ∧
    (calculateViralScore pkg platform webapp trend hour).overall ≤ 100 :=
  ⟨scoreHook_le _ _, scoreEmotionalImpact_le _, scoreShareability_le _ _,
   scoreTiming_le _ _, scoreUniqueness_le _ _, scoreTrendAlignment_le _ _,
   weightedOverall_le (scoreHook_le _ _) (scoreEmotionalImpact_le _)
     (scoreShareability_le _ _) (scoreTiming_le _ _) (scoreUniqueness_le _ _)
     (scoreTrendAlignment_le _ _)⟩

/-- C6 counterexample: with exactly one CTA alternative in the base
content, the code still adds variant C, so "at least two alternatives"
is not the condition the code implements. -/
theorem variantC_single_cta_counterexample :
    ((generateABVariants (some pkgOneCta) none).filter
      (fun v => v.variantId == "C")).length = 1 ∧
    (ctaVariationsOf (some pkgOneCta)).length < 2 := by
  decide

/-- C6 amended: variant C is added if and only if the CTA variations dict
of the base content is non-empty (at least one alternative; the
fewer-than-three guard is always satisfied because at most two variants
exist at that point), and variant C always reuses the control variant's
viral score. -/
theorem variantC_condition_and_score (original : Option ContentPackage)
    (optimized : Option OptimizedContent) :
    ((generateABVariants original optimized).filter
        (fun v => v.variantId == "C") ≠ [] ↔ ctaVariationsOf original ≠ []) ∧
    ∀ v ∈ generateABVariants original optimized, v.variantId = "C" →
      v.viralScore = controlViralScore optimized := by
  unfold generateABVariants
  dsimp only
  rcases h1 : hasVideoScriptB original with _ | _ <;>
    rcases h2 : hookVariationsOf optimized with _ | ⟨hd, tl⟩ <;>
    rcases h3 : ctaVariationsOf original with _ | ⟨c0, cs⟩ <;>
      simp [controlVariant, List.filter]

/-- C6 witness: with one CTA alternative the C variant exists and its viral
score equals the control score. -/
theorem variantC_condition_witness :
    (generateABVariants (some pkgOneCta) none).filter
      (fun v => v.variantId == "C") ≠ [] ∧
    ((generateABVariants (some pkgOneCta) none).getD 1
        (controlVariant none none)).viralScore = controlViralScore none :=
  ⟨(variantC_condition_and_score (some pkgOneCta) none).1.mpr (by decide),
   (variantC_condition_and_score (some pkgOneCta) none).2 _ (by decide) (by decide)⟩

/-- A candidate list on which every attempt raises or returns None yields
no asset. -/
theorem tryList_eq_none (attempt : String → Except String (Option MediaAsset)) :
    ∀ ps : List String,
      (∀ p ∈ ps, ∀ a, attempt p ≠ Except.ok (some a)) →
      tryList attempt ps = none := by
  intro ps
  induction ps with
  | nil => intro _; rfl
  | cons p ps ih =>
    intro h
    have hrest : ∀ q ∈ ps, ∀ a, attempt q ≠ Except.ok (some a) :=
      fun q hq => h q (List.mem_cons_of_mem _ hq)
    unfold tryList
    rcases he : attempt p with e | oa
    · exact ih hrest
    · rcases oa with _ | a
      · exact ih hrest
      · exact absurd he (h p (List.mem_cons_self p ps) a)

/-- The generator loop body: with an empty candidate list or a candidate
list on which every attempt fails, the fallback asset is returned. -/
theorem loopFallback (providers : List String)
    (attempt : String → Except String (Option MediaAsset)) (fb : MediaAsset)
    (assetId : String)
    (hf : ∀ p ∈ providers, ∀ a, attempt p ≠ Except.ok (some a)) :
    (if providers.isEmpty then fb
     else
       match tryList attempt providers with
       | some a => { a with id := assetId }
       | none => fb) = fb := by
  split_ifs with hemp
  · rfl
  · rw [tryList_eq_none attempt _ hf]

/-- C3 counterexample: for the audio capability with no credentialed
provider the voiceover asset carries provider "none", not "placeholder",
so the claim fails for the audio capability. -/
theorem voiceover_fallback_counterexample :
    (generateVoiceover (fun _ => false) (fun _ => Except.error "down") "a3").provider = "none" ∧
    (generateVoiceover (fun _ => false) (fun _ => Except.error "down") "a3").provider ≠ "placeholder" ∧
    getAvailableProviders "audio" (fun _ => false) none = [] := by
  decide

/-- C3 amended: when the candidate list is empty or every candidate fails,
generate never raises and returns a completed zero-cost asset; for images
and videos that asset has provider "placeholder", while the voiceover
fallback instead carries provider "none" (and no URL). -/
theorem media_generate_fallback (creds : String → Bool) (plan : String)
    (attempt : String → Except String (Option MediaAsset))
    (assetId platform : String) (w h : Nat) (pf : Bool) :
    ((∀ p ∈ getAvailableProviders "image" creds
        (if pf && plan == "free" then some Tier.free else none),
        ∀ a, attempt p ≠ Except.ok (some a)) →
      (generateImage creds plan attempt assetId platform w h pf).status = "completed" ∧
      (generateImage creds plan attempt assetId platform w h pf).provider = "placeholder" ∧
      (generateImage creds plan attempt assetId platform w h pf).cost = 0) ∧
    ((∀ p ∈ getAvailableProviders "video" creds none,
        ∀ a, attempt p ≠ Except.ok (some a)) →
      (generateVideo creds attempt assetId).status = "completed" ∧
      (generateVideo creds attempt assetId).provider = "placeholder" ∧
      (generateVideo creds attempt assetId).cost = 0) ∧
    ((∀ p ∈ getAvailableProviders "audio" creds none,
        ∀ a, attempt p ≠ Except.ok (some a)) →
      (generateVoiceover creds attempt assetId).status = "completed" ∧
      (generateVoiceover creds attempt assetId).provider = "none" ∧
      (generateVoiceover creds attempt assetId).cost = 0) := by
  refine ⟨fun hf => ?_, fun hf => ?_, fun hf => ?_⟩
  · have him : generateImage creds plan attempt assetId platform w h pf =
        placeholderImage assetId (aspectRatio platform w h).1 (aspectRatio platform w h).2 :=
      loopFallback _ attempt _ assetId hf
    rw [him]
    exact ⟨rfl, rfl, rfl⟩
  · have hv : generateVideo creds attempt assetId = placeholderVideo assetId :=
      loopFallback _ attempt _ assetId hf
    rw [hv]
    exact ⟨rfl, rfl, rfl⟩
  · have ha : generateVoiceover creds attempt assetId = fallbackVoiceover assetId :=
      loopFallback _ attempt _ assetId hf
    rw [ha]
    exact ⟨rfl, rfl, rfl⟩

/-- C3 witness: with every credential present and every provider call
failing, the image falls back to the placeholder and the voiceover to the
provider-"none" asset, both completed and free. -/
theorem media_generate_fallback_witness :
    (generateImage (fun _ => true) "free" (fun _ => Except.error "down") "a1" "tiktok").provider = "placeholder" ∧
    (generateVoiceover (fun _ => true) (fun _ => Except.error "down") "a3").provider = "none" ∧
    (generateImage (fun _ => true) "free" (fun _ => Except.error "down") "a1" "tiktok").cost = 0 :=
  ⟨((media_generate_fallback (fun _ => true) "free" (fun _ => Except.error "down")
      "a1" "tiktok" 1024 1024 true).1
      (fun _ _ _ h => Except.noConfusion h)).2.1,
   ((media_generate_fallback (fun _ => true) "free" (fun _ => Except.error "down")
      "a1" "tiktok" 1024 1024 true).2.2
      (fun _ _ _ h => Except.noConfusion h)).2.1,
   ((media_generate_fallback (fun _ => true) "free" (fun _ => Except.error "down")
      "a1" "tiktok" 1024 1024 true).1
      (fun _ _ _ h => Except.noConfusion h)).2.2⟩

/-- C4 counterexample: a free-plan user whose only credential is the
premium OpenAI key gets the placeholder immediately, even though the
all-tier candidate set is non-empty and the provider call would succeed —
the claimed fallback from the empty free-tier set to all tiers does not
exist in the code. -/
theorem freePlan_no_alltier_fallback_counterexample :
    (generateImage onlyOpenAI "free" (fun _ => Except.ok (some succAsset))
      "a2" "instagram").provider = "placeholder" ∧
    getAvailableProviders "image" onlyOpenAI none ≠ [] ∧
    getAvailableProviders "image" onlyOpenAI (some Tier.free) = [] := by
  decide

/-- C4 amended: a free-plan image request restricts the candidate list to
free-tier providers and, when that free-tier set is empty, returns the
placeholder immediately — it never reconsiders providers of other tiers. -/
theorem freePlan_restricts_to_free_tier (creds : String → Bool)
    (attempt : String → Except String (Option MediaAsset))
    (assetId platform : String) (w h : Nat)
    (hfree : getAvailableProviders "image" creds (some Tier.free) = []) :
    (generateImage creds "free" attempt assetId platform w h true).provider = "placeholder" ∧
    (generateImage creds "free" attempt assetId platform w h true).status = "completed" ∧
    (generateImage creds "free" attempt assetId platform w h true).cost = 0 := by
  have him : generateImage creds "free" attempt assetId platform w h true =
      placeholderImage assetId (aspectRatio platform w h).1 (aspectRatio platform w h).2 := by
    unfold generateImage
    dsimp only
    rw [show (if (true && ("free" == "free")) = true then some Tier.free else none) =
      some Tier.free from rfl]
    rw [hfree]
    rfl
  rw [him]
  exact ⟨rfl, rfl, rfl⟩

/-- C4 witness: OpenAI-only credentials leave the free-tier set empty, so
the free-plan image request yields the placeholder. -/
theorem freePlan_restricts_to_free_tier_witness :
    (generateImage onlyOpenAI "free" (fun _ => Except.ok (some succAsset))
      "a2" "linkedin").provider = "placeholder" :=
  (freePlan_restricts_to_free_tier onlyOpenAI (fun _ => Except.ok (some succAsset))
    "a2" "linkedin" 1024 1024 (by decide)).1

/-- Every sublist of the image registry sorts into tier-then-cost order:
within each tier, the declaration order of the registry is already
cost-ascending, and the stable sort preserves it. -/
theorem image_sublists_sorted :
    ∀ l ∈ imageProviders.sublists,
      List.Pairwise tierCostLE (pyStableSort (fun p => priorityOrder p.tier) l) := by
  decide

/-- Every sublist of the video registry sorts into tier-then-cost order. -/
theorem video_sublists_sorted :
    ∀ l ∈ videoProviders.sublists,
      List.Pairwise tierCostLE (pyStableSort (fun p => priorityOrder p.tier) l) := by
  decide

/-- Every sublist of the audio registry sorts into tier-then-cost order. -/
theorem audio_sublists_sorted :
    ∀ l ∈ audioProviders.sublists,
      List.Pairwise tierCostLE (pyStableSort (fun p => priorityOrder p.tier) l) := by
  decide

/-- C7: for every capability, credential map and tier filter, the
candidate list is ordered ascending by tier with ties broken by declared
cost ascending, contains only providers whose credential is present, and
the name list the router consumes is exactly its image. -/
theorem listCandidates_ordered_and_credentialed (mediaType : String)
    (creds : String → Bool) (priority : Option Tier) :
    List.Pairwise tierCostLE (availableFrom (providersOf mediaType) creds priority) ∧
    (∀ p ∈ availableFrom (providersOf mediaType) creds priority, creds p.keyName = true) ∧
    getAvailableProviders mediaType creds priority =
      (availableFrom (providersOf mediaType) creds priority).map (fun p => p.name) := by
  refine ⟨?_, ?_, rfl⟩
  · unfold availableFrom providersOf
    split_ifs with h1 h2 h3
    · exact image_sublists_sorted _ (List.mem_sublists.2 (List.filter_sublist _))
    · exact video_sublists_sorted _ (List.mem_sublists.2 (List.filter_sublist _))
    · exact audio_sublists_sorted _ (List.mem_sublists.2 (List.filter_sublist _))
    · simp [pyStableSort]
  · intro p hp
    unfold availableFrom at hp
    rw [mem_pyStableSort] at hp
    have hpred := List.of_mem_filter hp
    simp only [Bool.and_eq_true] at hpred
    exact hpred.1

/-- Python max over a non-empty list returns an element whose key is
maximal and which is the first element attaining that maximum: the list
splits around the winner with every earlier element strictly smaller. -/
theorem pyMaxSpec (key : Variant → Nat) :
    ∀ (xs : List Variant) (x : Variant),
      pyMax key x xs ∈ x :: xs ∧
      (∀ v ∈ x :: xs, key v ≤ key (pyMax key x xs)) ∧
      ∃ l₁ l₂, x :: xs = l₁ ++ pyMax key x xs :: l₂ ∧
        ∀ u ∈ l₁, key u < key (pyMax key x xs) := by
  intro xs
  induction xs with
  | nil =>
    intro x
    refine ⟨List.mem_cons_self x [], ?_, [], [], rfl, by simp⟩
    intro v hv
    rcases List.mem_singleton.1 hv with rfl
    exact le_refl _
  | cons y ys ih =>
    intro x
    by_cases hxy : key x < key y
    · have hx : pyMax key x (y :: ys) = pyMax key y ys := by
        unfold pyMax
        dsimp only [List.foldl]
        rw [if_pos hxy]
      obtain ⟨hmem, hle, l₁, l₂, heq, hlt⟩ := ih y
      rw [hx]
      have hyw : key y ≤ key (pyMax key y ys) := hle y (List.mem_cons_self y ys)
      refine ⟨List.mem_cons_of_mem x hmem, ?_, x :: l₁, l₂, ?_, ?_⟩
      · intro v hv
        rcases List.mem_cons.1 hv with rfl | hv2
        · exact le_of_lt (lt_of_lt_of_le hxy hyw)
        · exact hle v hv2
      · rw [List.cons_append, ← heq]
      · intro u hu
        rcases List.mem_cons.1 hu with rfl | hu2
        · exact lt_of_lt_of_le hxy hyw
        · exact hlt u hu2
    · have hx : pyMax key x (y :: ys) = pyMax key x ys := by
        unfold pyMax
        dsimp only [List.foldl]
        rw [if_neg hxy]
      obtain ⟨hmem, hle, l₁, l₂, heq, hlt⟩ := ih x
      rw [hx]
      have hyx : key y ≤ key x := Nat.le_of_not_lt hxy
      have hxw : key x ≤ key (pyMax key x ys) := hle x (List.mem_cons_self x ys)
      refine ⟨?_, ?_, ?_⟩
      · rcases List.mem_cons.1 hmem with heqx | hys
        · rw [heqx]
          exact List.mem_cons_self x (y :: ys)
        · exact List.mem_cons_of_mem x (List.mem_cons_of_mem y hys)
      · intro v hv
        rcases List.mem_cons.1 hv with rfl | hv2
        · exact hxw
        · rcases List.mem_cons.1 hv2 with rfl | hv3
          · exact le_trans hyx hxw
          · exact hle v (List.mem_cons_of_mem x hv3)
      · rcases l₁ with _ | ⟨a, l₁t⟩
        · rw [List.nil_append] at heq
          injection heq with h1 h2
          refine ⟨[], y :: ys, ?_, by simp⟩
          rw [List.nil_append, ← h1]
        · rw [List.cons_append] at heq
          injection heq with h1 h2
          refine ⟨x :: y :: l₁t, l₂, ?_, ?_⟩
          · rw [List.cons_append, List.cons_append, ← h2]
          · intro u hu
            have ha := hlt a (List.mem_cons_self a l₁t)
            have hxa : key x = key a := by rw [h1]
            have hx2 : key x < key (pyMax key x ys) := by
              rw [hxa]
              exact ha
            rcases List.mem_cons.1 hu with hux | hu2
            · rw [hux]
              exact hx2
            · rcases List.mem_cons.1 hu2 with huy | hu3
              · rw [huy]
                exact lt_of_le_of_lt hyx hx2
              · exact hlt u (List.mem_cons_of_mem a hu3)

/-- C9: the winner that the finalize node selects from a non-empty variant
list via Python max has a viral score at least as high as every variant's,
and on ties the variant declared earliest in the list (the control
variant first) is selected: every variant strictly before the winner
scores strictly lower. -/
theorem selectWinner_max_and_first (x : Variant) (xs : List Variant) :
    pyMax (fun v => v.viralScore) x xs ∈ x :: xs ∧
    (∀ v ∈ x :: xs, v.viralScore ≤ (pyMax (fun v => v.viralScore) x xs).viralScore) ∧
    ∃ l₁ l₂, x :: xs = l₁ ++ pyMax (fun v => v.viralScore) x xs :: l₂ ∧
      ∀ u ∈ l₁, u.viralScore < (pyMax (fun v => v.viralScore) x xs).viralScore :=
  pyMaxSpec (fun v => v.viralScore) xs x

/-- Success projection of an ok result. -/
theorem exceptIsOk_ok (v : α) : (Except.ok v : Except String α).isOk = true := rfl

/-- Success projection of an error result. -/
theorem exceptIsOk_error (e : String) :
    (Except.error e : Except String α).isOk = false := rfl

/-- The creative-stage loop keeps exactly the successful platforms as
packages and appends one stage-tagged error per throwing platform, in
platform order. -/
theorem creativeFold (f : String → Except String ContentPackage) :
    ∀ (ps : List String) (a : List (String × ContentPackage)) (b : List String),
      ps.foldl (creativeStep f) (a, b) =
        (a ++ ps.filterMap (fun p => match f p with
          | .ok pkg => some (p, pkg)
          | .error _ => none),
         b ++ (ps.filter (fun p => !(f p).isOk)).map
           (fun p => "Creative failed for " ++ p ++ ": " ++ exceptMsg (f p))) := by
  intro ps
  induction ps with
  | nil => intro a b; simp
  | cons p ps ih =>
    intro a b
    rw [List.foldl_cons]
    rcases hf : f p with e | pkg
    · have hstep : creativeStep f (a, b) p =
          (a, b ++ ["Creative failed for " ++ p ++ ": " ++ e]) := by
        unfold creativeStep
        rw [hf]
      rw [hstep, ih]
      simp [hf, exceptIsOk_error, exceptMsg, List.append_assoc]
    · have hstep : creativeStep f (a, b) p = (a ++ [(p, pkg)], b) := by
        unfold creativeStep
        rw [hf]
      rw [hstep, ih]
      simp [hf, exceptIsOk_ok, List.append_assoc]

/-- The media-stage loop adds no errors when every generation call
succeeds. -/
theorem mediaFoldErrors (est : ContentPackage → Nat)
    (gen : String → ContentPackage → Except String (List (String × MediaAsset))) :
    ∀ (pps : List (String × ContentPackage)),
      (∀ pp ∈ pps, (gen pp.1 pp.2).isOk = true) →
      ∀ acc, (pps.foldl (mediaStep est gen) acc).2.1 = acc.2.1 := by
  intro pps
  induction pps with
  | nil => intro _ acc; rfl
  | cons pp pps ih =>
    intro h acc
    rw [List.foldl_cons]
    rcases hg : gen pp.1 pp.2 with e | assets
    · have := h pp (List.mem_cons_self pp pps)
      rw [hg] at this
      exact absurd this (by simp [exceptIsOk_error])
    · have hstep : (mediaStep est gen acc pp).2.1 = acc.2.1 := by
        unfold mediaStep
        rw [hg]
      rw [ih (fun q hq => h q (List.mem_cons_of_mem pp hq)), hstep]

/-- The optimize-stage loop adds no errors when every optimization call
succeeds. -/
theorem optimizeFoldErrors (g : ContentPackage → String → Except String OptimizedContent) :
    ∀ (pps : List (String × ContentPackage)),
      (∀ pp ∈ pps, (g pp.2 pp.1).isOk = true) →
      ∀ acc, (pps.foldl (optimizeStep g) acc).2.2 = acc.2.2 := by
  intro pps
  induction pps with
  | nil => intro _ acc; rfl
  | cons pp pps ih =>
    intro h acc
    rw [List.foldl_cons]
    rcases hg : g pp.2 pp.1 with e | o
    · have := h pp (List.mem_cons_self pp pps)
      rw [hg] at this
      exact absurd this (by simp [exceptIsOk_error])
    · have hstep : (optimizeStep g acc pp).2.2 = acc.2.2 := by
        unfold optimizeStep
        rw [hg]
      rw [ih (fun q hq => h q (List.mem_cons_of_mem pp hq)), hstep]

/-- Lookup in the association list that maps every platform to its
computed value. -/
theorem lookup_map_self (f : String → List Variant) :
    ∀ (ps : List String) (p : String), p ∈ ps →
      (ps.map (fun q => (q, f q))).lookup p = some (f p) := by
  intro ps
  induction ps with
  | nil => intro p hp; exact absurd hp (List.not_mem_nil p)
  | cons q ps ih =>
    intro p hp
    rw [List.map_cons]
    by_cases hpq : p = q
    · subst hpq
      simp [List.lookup]
    · have hp2 : p ∈ ps := by
        rcases List.mem_cons.1 hp with h | h
        · exact absurd h hpq
        · exact h
      have hbeq : (p == q) = false := beq_false_of_ne hpq
      simp [List.lookup, hbeq, ih p hp2]

/-- The variant generator always emits the control variant, so its output
is never empty. -/
theorem generateABVariants_ne_nil (o : Option ContentPackage)
    (opt : Option OptimizedContent) : generateABVariants o opt ≠ [] := by
  unfold generateABVariants
  dsimp only
  rcases h1 : hasVideoScriptB o with _ | _ <;>
    rcases h2 : hookVariationsOf opt with _ | ⟨hd, tl⟩ <;>
    rcases h3 : ctaVariationsOf o with _ | ⟨c0, cs⟩ <;>
      simp

/-- The finalize loop appends exactly one item per platform whose variant
list is non-empty. -/
theorem finalizeFoldLength (now : String) (st : WFState) :
    ∀ (ps : List String),
      (∀ p ∈ ps, (st.abVariants.lookup p).getD [] ≠ []) →
      ∀ acc : List ContentItem,
        (ps.foldl (finalizeStep now st) acc).length = acc.length + ps.length := by
  intro ps
  induction ps with
  | nil => intro _ acc; simp
  | cons p ps ih =>
    intro h acc
    rw [List.foldl_cons]
    rcases hv : (st.abVariants.lookup p).getD [] with _ | ⟨v, vs⟩
    · exact absurd hv (h p (List.mem_cons_self p ps))
    · have hstep : finalizeStep now st acc p =
          acc ++
            [{ id := "content_" ++ p ++ "_" ++ now,
               userId := st.userId, webappId := st.webappId, platform := p,
               ctype := determineContentType p, status := "pending",
               title := (pyMax (fun a => a.viralScore) v vs).title,
               caption := (pyMax (fun a => a.viralScore) v vs).caption,
               hashtags := (pyMax (fun a => a.viralScore) v vs).hashtags,
               mediaUrls := extractMediaUrls p st.mediaAssets,
               viralScore := (pyMax (fun a => a.viralScore) v vs).viralScore,
               variantId := (pyMax (fun a => a.viralScore) v vs).variantId,
               isVariant := true }] := by
        unfold finalizeStep
        rw [hv]
      rw [hstep, ih (fun q hq => h q (List.mem_cons_of_mem p hq))]
      simp
      omega

/-- Under the operator.add reducer on the errors channel, the run's error
list is the creative-stage error list duplicated sixteen-fold when
research, media and optimization succeed: each of the four super-steps
after creative returns the full state, so the reducer re-appends the
accumulated list four times (2^4 copies). -/
theorem pipelineErrorsEq
    (userId webappId : String) (webapp : WebappData) (platforms : List String)
    (research : WebappData → Except String ResearchResults)
    (creative : ResearchResults → WebappData → String → Except String ContentPackage)
    (estCost : ContentPackage → Nat)
    (mediaGen : String → ContentPackage → Except String (List (String × MediaAsset)))
    (optimize : ContentPackage → String → WebappData → Except String OptimizedContent)
    (now : String) (r : ResearchResults)
    (hres : research webapp = Except.ok r)
    (hmed : ∀ p pkg, (mediaGen p pkg).isOk = true)
    (hopt : ∀ pkg p, (optimize pkg p webapp).isOk = true) :
    (runPipeline userId webappId webapp platforms research creative estCost
        mediaGen optimize now).errors =
      List.flatten (List.replicate 16
        ((platforms.filter (fun p => !(creative r webapp p).isOk)).map
          (fun p => "Creative failed for " ++ p ++ ": " ++ exceptMsg (creative r webapp p)))) := by
  unfold runPipeline applyNode finalizeNode abTestNode optimizeNode mediaNode
    creativeNode researchNode initialState
  dsimp only
  rw [hres]
  dsimp only
  rw [creativeFold]
  dsimp only
  rw [mediaFoldErrors estCost mediaGen _ (fun pp _ => hmed pp.1 pp.2)]
  rw [optimizeFoldErrors _ _ (fun pp _ => hopt pp.2 pp.1)]
  simp [List.append_assoc]

/-- The run finalizes exactly one item per target platform when research
succeeds, regardless of creative-stage failures. -/
theorem pipelineItemCount
    (userId webappId : String) (webapp : WebappData) (platforms : List String)
    (research : WebappData → Except String ResearchResults)
    (creative : ResearchResults → WebappData → String → Except String ContentPackage)
    (estCost : ContentPackage → Nat)
    (mediaGen : String → ContentPackage → Except String (List (String × MediaAsset)))
    (optimize : ContentPackage → String → WebappData → Except String OptimizedContent)
    (now : String) (r : ResearchResults)
    (hres : research webapp = Except.ok r) :
    (runPipeline userId webappId webapp platforms research creative estCost
        mediaGen optimize now).content.length = platforms.length := by
  unfold runPipeline applyNode finalizeNode abTestNode optimizeNode mediaNode
    creativeNode researchNode initialState
  dsimp only
  rw [hres]
  dsimp only
  rw [finalizeFoldLength]
  · simp
  · intro p hp
    rw [lookup_map_self _ _ p hp]
    dsimp only [Option.getD]
    exact generateABVariants_ne_nil _ _

/-- C1 counterexample: in the concrete two-platform run whose creative
stage throws for exactly one platform (M = 1), the error list the run
returns has sixteen entries, not one: the operator.add reducer declared on
the errors channel re-appends the full accumulated list at each of the
four super-steps after creative, because every node returns the whole
state. The item half of the claim is unaffected (two items). -/
theorem pipeline_exact_errors_counterexample :
    ((["youtube", "twitter"].filter
        (fun p => !(creative0 research0 webapp0 p).isOk)).length = 1) ∧
    run0.errors.length = 16 ∧
    run0.errors.length ≠ 1 ∧
    run0.content.length = 2 := by
  decide

/-- C1 amended: with successful research, media and optimization oracles
and an arbitrary creative oracle, the run never raises (it is a total
function returning success) and its finalized content holds exactly one
item per target platform, never fewer; its error list, however, is the
list of the M stage-tagged creative errors duplicated sixteen-fold —
16 * M entries, every one of them a creative-stage-tagged string —
because the errors channel's operator.add reducer re-appends the full
returned error list at each of the four nodes after creative. -/
theorem pipeline_reducer_duplicated_errors
    (userId webappId : String) (webapp : WebappData) (platforms : List String)
    (research : WebappData → Except String ResearchResults)
    (creative : ResearchResults → WebappData → String → Except String ContentPackage)
    (estCost : ContentPackage → Nat)
    (mediaGen : String → ContentPackage → Except String (List (String × MediaAsset)))
    (optimize : ContentPackage → String → WebappData → Except String OptimizedContent)
    (now : String) (r : ResearchResults)
    (hres : research webapp = Except.ok r)
    (hmed : ∀ p pkg, (mediaGen p pkg).isOk = true)
    (hopt : ∀ pkg p, (optimize pkg p webapp).isOk = true) :
    (runPipeline userId webappId webapp platforms research creative estCost
        mediaGen optimize now).errors =
      List.flatten (List.replicate 16
        ((platforms.filter (fun p => !(creative r webapp p).isOk)).map
          (fun p => "Creative failed for " ++ p ++ ": " ++ exceptMsg (creative r webapp p)))) ∧
    (runPipeline userId webappId webapp platforms research creative estCost
        mediaGen optimize now).errors.length =
      16 * (platforms.filter (fun p => !(creative r webapp p).isOk)).length ∧
    (∀ e ∈ (runPipeline userId webappId webapp platforms research creative estCost
        mediaGen optimize now).errors,
      e ∈ (platforms.filter (fun p => !(creative r webapp p).isOk)).map
        (fun p => "Creative failed for " ++ p ++ ": " ++ exceptMsg (creative r webapp p))) ∧
    (runPipeline userId webappId webapp platforms research creative estCost
        mediaGen optimize now).content.length = platforms.length ∧
    (runPipeline userId webappId webapp platforms research creative estCost
        mediaGen optimize now).success = true := by
  have he := pipelineErrorsEq userId webappId webapp platforms research creative
    estCost mediaGen optimize now r hres hmed hopt
  refine ⟨he, ?_, ?_, ?_, rfl⟩
  · rw [he]
    simp [List.length_flatten, List.map_replicate, List.sum_replicate,
      smul_eq_mul, List.length_map]
    omega
  · intro e he2
    rw [he] at he2
    rcases List.mem_flatten.1 he2 with ⟨l, hl, hel⟩
    rcases List.eq_of_mem_replicate hl with rfl
    exact hel
  · exact pipelineItemCount userId webappId webapp platforms research creative
      estCost mediaGen optimize now r hres

/-- C1 witness: two platforms, creative throws for youtube only — sixteen
duplicated copies of the single tagged error, and two items. -/
theorem pipeline_reducer_duplicated_errors_witness :
    run0.errors.length = 16 ∧ run0.content.length = 2 := by
  have h := pipeline_reducer_duplicated_errors "u1" "w1" webapp0
    ["youtube", "twitter"] research0F creative0 estCost0 mediaGen0 optimize0
    "1700000000" research0 rfl (fun _ _ => rfl) (fun _ _ => rfl)
  unfold run0
  constructor
  · rw [h.2.1]
    decide
  · rw [h.2.2.2.1]
    decide

/-- Every item produced by the finalize loop carries status "pending" and
the variant flag. -/
theorem finalizeFoldStatus (now : String) (st : WFState) :
    ∀ (ps : List String) (acc : List ContentItem),
      (∀ i ∈ acc, i.status = "pending" ∧ i.isVariant = true) →
      ∀ i ∈ ps.foldl (finalizeStep now st) acc,
        i.status = "pending" ∧ i.isVariant = true := by
  intro ps
  induction ps with
  | nil =>
    intro acc h i hi
    exact h i hi
  | cons p ps ih =>
    intro acc h i hi
    rw [List.foldl_cons] at hi
    refine ih (finalizeStep now st acc p) ?_ i hi
    intro j hj
    unfold finalizeStep at hj
    rcases hv : (st.abVariants.lookup p).getD [] with _ | ⟨v, vs⟩
    · rw [hv] at hj
      exact h j hj
    · rw [hv] at hj
      dsimp only at hj
      rcases List.mem_append.1 hj with hj1 | hj2
      · exact h j hj1
      · rcases List.mem_singleton.1 hj2 with rfl
        exact ⟨rfl, rfl⟩

/-- C2 counterexample: in the concrete run whose creative stage throws for
youtube, the youtube item has an empty caption and no media URLs yet still
carries the same status "pending" as every complete item — no degraded
flag exists in the item shape and nothing excludes the item from the
default pending-approval path, refuting the claimed invariant. -/
theorem degraded_invariant_counterexample :
    ¬ (∀ item ∈ run0.content,
        (item.title ≠ "" ∧ item.caption ≠ "" ∧ item.mediaUrls ≠ []) ∨
        item.status ≠ "pending") := by
  decide

/-- C2 amended: every item the finalize node produces — including items
whose mandatory fields are empty after upstream failures — is emitted
uniformly with status "pending" and the variant flag; the code defines no
degraded flag and no exclusion from the approval path. -/
theorem finalized_items_always_pending (now : String) (st : WFState) :
    ∀ item ∈ (finalizeNode now st).finalContent,
      item.status = "pending" ∧ item.isVariant = true := by
  intro item hitem
  unfold finalizeNode at hitem
  dsimp only at hitem
  exact finalizeFoldStatus now st st.platforms []
    (fun i hi => absurd hi (List.not_mem_nil i)) item hitem

/-- C2 witness: the single item of the small finalize state has status
"pending". -/
theorem finalized_items_always_pending_witness :
    ((finalizeNode "t0" stSmall).finalContent.headD
      { id := "", userId := "", webappId := "", platform := "", ctype := "",
        status := "", title := "", caption := "", hashtags := [], mediaUrls := [],
        viralScore := 0, variantId := "", isVariant := false }).status = "pending" := by
  have h := finalized_items_always_pending "t0" stSmall
  exact (h _ (by decide)).1
